import Mathlib

/-!
Verification of the ShotTracker ballistics core
(`src/backend/app/ballistics.py`) against its specification.

The three estimators are pure floating-point functions; we embed them over
the real numbers `ℝ`, with Python exceptions made explicit through
`Except BallisticsError`:
  * `ValueError("Muzzle velocity must be > 0")` becomes
    `BallisticsError.invalidInput`;
  * Python's `ZeroDivisionError` (a float division whose divisor is `0.0`
    raises in Python rather than returning `inf`/`nan`) becomes
    `BallisticsError.divisionByZero`, checked exactly where the source
    performs the corresponding division.

Numeric literals are carried over verbatim (`9.81`, `0.9144`, `0.3048`,
`0.44704`, `39.3701`, `0.167`, `1.047`, `0.8`); Python's `math.radians x`
is `x * π / 180`, `math.sin` is `Real.sin`, `**` on a nonneg base is
`Real.rpow`.  (For a negative base Python's `**` yields a complex number;
`Real.rpow` differs there, but the only claims touching non-positive
velocity inspect the error constructor, which is unaffected.)
-/

namespace ShotTracker

def G : ℝ := 9.81
def YARDS_TO_METERS : ℝ := 0.9144
def FPS_TO_MPS : ℝ := 0.3048
def MPH_TO_MPS : ℝ := 0.44704
def INCHES_PER_METER : ℝ := 39.3701

/-- Error kinds the Python functions can raise. -/
inductive BallisticsError where
  | invalidInput (msg : String)
  | divisionByZero
  deriving DecidableEq

/-- Result dict of `compute_drop`. -/
structure DropResult where
  drop_inches : ℝ
  drop_moa : ℝ

/-- Result dict of `compute_wind_drift`. -/
structure DriftResult where
  drift_inches : ℝ
  drift_moa : ℝ

/-- `compute_time_of_flight` from `ballistics.py`: converts to metric and
divides; raises `ValueError` when the converted velocity is `<= 0`. -/
noncomputable def compute_time_of_flight
    (distance_yards muzzle_velocity_fps : ℝ) : Except BallisticsError ℝ :=
  let distance_m := distance_yards * YARDS_TO_METERS
  let velocity_mps := muzzle_velocity_fps * FPS_TO_MPS
  if velocity_mps ≤ 0 then
    Except.error (BallisticsError.invalidInput "Muzzle velocity must be > 0")
  else
    Except.ok (distance_m / velocity_mps)

/-- `compute_drop` from `ballistics.py`.  The final MOA conversion divides
by `distance_yards / 100`; in Python a zero divisor raises
`ZeroDivisionError`, modelled by the explicit guard. -/
noncomputable def compute_drop
    (distance_yards muzzle_velocity_fps zero_yards : ℝ) :
    Except BallisticsError DropResult :=
  (compute_time_of_flight zero_yards muzzle_velocity_fps).bind fun t_zero =>
  (compute_time_of_flight distance_yards muzzle_velocity_fps).bind fun t_target =>
  let drop_zero_m := 0.5 * G * t_zero ^ 2
  let drop_target_m := 0.5 * G * t_target ^ 2
  let relative_drop_m := drop_target_m - drop_zero_m
  let drop_inches := relative_drop_m * INCHES_PER_METER
  let moa_per_inch_at_100 := 1 / 1.047
  let distance_factor := distance_yards / 100
  if distance_factor = 0 then
    Except.error BallisticsError.divisionByZero
  else
    Except.ok { drop_inches := drop_inches
                drop_moa := drop_inches * moa_per_inch_at_100 / distance_factor }

/-- `compute_wind_drift` from `ballistics.py` (the calibrated Variant B).
Two float divisions can raise `ZeroDivisionError` in Python: the division
by `velocity_factor` and the MOA conversion's division by
`distance_yards / 100`; both are modelled by explicit guards at the point
where the source divides. -/
noncomputable def compute_wind_drift
    (distance_yards muzzle_velocity_fps wind_speed_mph wind_angle_deg : ℝ) :
    Except BallisticsError DriftResult :=
  let theta_rad := wind_angle_deg * Real.pi / 180
  let wind_value := |Real.sin theta_rad|
  let wind_direction : ℝ := if 0 ≤ Real.sin theta_rad then 1 else -1
  let distance_hundreds := distance_yards / 100
  let velocity_normalized := muzzle_velocity_fps / 2700
  let velocity_factor := velocity_normalized ^ (0.8 : ℝ)
  if velocity_factor = 0 then
    Except.error BallisticsError.divisionByZero
  else
    let base_constant := 0.167
    let drift_raw :=
      wind_speed_mph * distance_hundreds ^ 2 * wind_value * base_constant
        / velocity_factor
    let drift_inches := drift_raw * wind_direction
    let moa_per_inch_at_100 := 1 / 1.047
    let distance_factor := distance_yards / 100
    if distance_factor = 0 then
      Except.error BallisticsError.divisionByZero
    else
      Except.ok { drift_inches := drift_inches
                  drift_moa := drift_inches * moa_per_inch_at_100 / distance_factor }

/-! ### Closed forms on the non-error paths -/

/-- The value returned by `compute_time_of_flight` on valid input. -/
noncomputable def tofVal (distance_yards muzzle_velocity_fps : ℝ) : ℝ :=
  distance_yards * YARDS_TO_METERS / (muzzle_velocity_fps * FPS_TO_MPS)

/-- The `drop_inches` field returned by `compute_drop` on valid input. -/
noncomputable def dropInchesVal
    (distance_yards muzzle_velocity_fps zero_yards : ℝ) : ℝ :=
  (0.5 * G * tofVal distance_yards muzzle_velocity_fps ^ 2
      - 0.5 * G * tofVal zero_yards muzzle_velocity_fps ^ 2)
    * INCHES_PER_METER

/-- The `drift_inches` field returned by `compute_wind_drift` on valid input. -/
noncomputable def driftInchesVal
    (distance_yards muzzle_velocity_fps wind_speed_mph wind_angle_deg : ℝ) : ℝ :=
  (wind_speed_mph * (distance_yards / 100) ^ 2
      * |Real.sin (wind_angle_deg * Real.pi / 180)| * 0.167
      / ((muzzle_velocity_fps / 2700) ^ (0.8 : ℝ)))
    * (if 0 ≤ Real.sin (wind_angle_deg * Real.pi / 180) then 1 else -1)

lemma bind_ok {α β : Type} (a : α) (f : α → Except BallisticsError β) :
    (Except.ok a).bind f = f a := rfl

lemma bind_err {α β : Type} (e : BallisticsError)
    (f : α → Except BallisticsError β) :
    (Except.error e : Except BallisticsError α).bind f = Except.error e := rfl

lemma tof_ok (d v : ℝ) (hv : 0 < v) :
    compute_time_of_flight d v = Except.ok (tofVal d v) := by
  have h : ¬ v * FPS_TO_MPS ≤ 0 := by
    simp only [FPS_TO_MPS, not_le]
    positivity
  simp only [compute_time_of_flight, tofVal, if_neg h]

lemma tof_invalid (d v : ℝ) (hv : v ≤ 0) :
    compute_time_of_flight d v
      = Except.error (BallisticsError.invalidInput "Muzzle velocity must be > 0") := by
  have h : v * FPS_TO_MPS ≤ 0 := by
    have hc : (0 : ℝ) ≤ FPS_TO_MPS := by norm_num [FPS_TO_MPS]
    exact mul_nonpos_iff.mpr (Or.inr ⟨hv, hc⟩)
  simp only [compute_time_of_flight, if_pos h]

lemma drop_ok (d v z : ℝ) (hv : 0 < v) (hd : d ≠ 0) :
    compute_drop d v z
      = Except.ok { drop_inches := dropInchesVal d v z
                    drop_moa := dropInchesVal d v z * (1 / 1.047) / (d / 100) } := by
  have hdf : ¬ (d / 100 : ℝ) = 0 := div_ne_zero hd (by norm_num)
  simp only [compute_drop, tof_ok _ _ hv, bind_ok, dropInchesVal, if_neg hdf]

lemma drift_ok (d v w a : ℝ) (hv : 0 < v) (hd : d ≠ 0) :
    compute_wind_drift d v w a
      = Except.ok { drift_inches := driftInchesVal d v w a
                    drift_moa := driftInchesVal d v w a * (1 / 1.047) / (d / 100) } := by
  have hvf : ¬ ((v / 2700 : ℝ) ^ (0.8 : ℝ) = 0) :=
    ne_of_gt (Real.rpow_pos_of_pos (by positivity) _)
  have hdf : ¬ (d / 100 : ℝ) = 0 := div_ne_zero hd (by norm_num)
  simp only [compute_wind_drift, driftInchesVal, if_neg hvf, if_neg hdf]

lemma sin_deg_90 : Real.sin (90 * Real.pi / 180) = 1 := by
  rw [show (90 : ℝ) * Real.pi / 180 = Real.pi / 2 by ring]
  exact Real.sin_pi_div_two

lemma driftInchesVal_calib : driftInchesVal 300 2700 10 90 = 15.03 := by
  rw [driftInchesVal, sin_deg_90]
  norm_num [Real.one_rpow]

/-! ### Claims -/

/-- C1: for every `muzzle_velocity_fps ≤ 0` and every distance,
`compute_time_of_flight` returns the `invalidInput` ("Muzzle velocity must
be > 0") error, and `compute_drop`, which calls it for both `zero_yards`
and `distance_yards`, propagates the very same error to the caller. -/
theorem c1_invalid_velocity_propagates (d v z : ℝ) (hv : v ≤ 0) :
    compute_time_of_flight d v
        = Except.error (BallisticsError.invalidInput "Muzzle velocity must be > 0") ∧
      compute_drop d v z
        = Except.error (BallisticsError.invalidInput "Muzzle velocity must be > 0") := by
  refine ⟨tof_invalid d v hv, ?_⟩
  simp only [compute_drop, tof_invalid _ _ hv, bind_err]

theorem c1_witness :
    compute_time_of_flight 300 0
        = Except.error (BallisticsError.invalidInput "Muzzle velocity must be > 0") ∧
      compute_drop 300 0 100
        = Except.error (BallisticsError.invalidInput "Muzzle velocity must be > 0") :=
  c1_invalid_velocity_propagates 300 0 100 (by norm_num)

/-- C2: the calibration scenario `compute_wind_drift(300, 2700, 10, 90)`
returns `drift_inches = 15.03`, which is ≈ 15.0 and inside the stated
15–16 inch calibration target. -/
theorem c2_calibration_scenario :
    ∃ r : DriftResult, compute_wind_drift 300 2700 10 90 = Except.ok r ∧
      r.drift_inches = 15.03 ∧ 15 ≤ r.drift_inches ∧ r.drift_inches ≤ 16 := by
  refine ⟨_, drift_ok 300 2700 10 90 (by norm_num) (by norm_num), ?_, ?_, ?_⟩ <;>
    norm_num [driftInchesVal_calib]

/-- C3: on every valid input, `drop_moa` equals
`drop_inches * (1/1.047) / (distance_yards/100)` exactly, and `drift_moa`
satisfies the identical identity with `drift_inches` (both functions
compute MOA by that very expression). -/
theorem c3_moa_roundtrip :
    (∀ d v z : ℝ, 0 < d → 0 < v → 0 < z →
      ∃ r : DropResult, compute_drop d v z = Except.ok r ∧
        r.drop_moa = r.drop_inches * (1 / 1.047) / (d / 100)) ∧
    (∀ d v w a : ℝ, 0 < d → 0 < v →
      ∃ r : DriftResult, compute_wind_drift d v w a = Except.ok r ∧
        r.drift_moa = r.drift_inches * (1 / 1.047) / (d / 100)) := by
  constructor
  · intro d v z hd hv _
    exact ⟨_, drop_ok d v z hv (ne_of_gt hd), rfl⟩
  · intro d v w a hd hv
    exact ⟨_, drift_ok d v w a hv (ne_of_gt hd), rfl⟩

theorem c3_witness :
    (∃ r : DropResult, compute_drop 300 2700 200 = Except.ok r ∧
        r.drop_moa = r.drop_inches * (1 / 1.047) / (300 / 100)) ∧
    (∃ r : DriftResult, compute_wind_drift 300 2700 10 90 = Except.ok r ∧
        r.drift_moa = r.drift_inches * (1 / 1.047) / (300 / 100)) :=
  ⟨c3_moa_roundtrip.1 300 2700 200 (by norm_num) (by norm_num) (by norm_num),
   c3_moa_roundtrip.2 300 2700 10 90 (by norm_num) (by norm_num)⟩

/-- C5: at `distance_yards = zero_yards` the two free-fall terms cancel, so
`compute_drop d v d` returns exactly zero `drop_inches` and `drop_moa` for
every `d, v > 0`. -/
theorem c5_drop_zero_at_zero_range (d v : ℝ) (hd : 0 < d) (hv : 0 < v) :
    compute_drop d v d = Except.ok { drop_inches := 0, drop_moa := 0 } := by
  rw [drop_ok d v d hv (ne_of_gt hd)]
  have h0 : dropInchesVal d v d = 0 := by
    simp [dropInchesVal]
  rw [h0]
  simp

theorem c5_witness :
    compute_drop 300 2700 300 = Except.ok { drop_inches := 0, drop_moa := 0 } :=
  c5_drop_zero_at_zero_range 300 2700 (by norm_num) (by norm_num)

lemma sin_deg_0 : Real.sin (0 * Real.pi / 180) = 0 := by
  norm_num

lemma sin_deg_180 : Real.sin (180 * Real.pi / 180) = 0 := by
  rw [show (180 : ℝ) * Real.pi / 180 = Real.pi by ring]
  exact Real.sin_pi

lemma sin_deg_270 : Real.sin (270 * Real.pi / 180) = -1 := by
  rw [show (270 : ℝ) * Real.pi / 180 = Real.pi + Real.pi / 2 by ring,
    Real.sin_add, Real.sin_pi, Real.cos_pi, Real.sin_pi_div_two, Real.cos_pi_div_two]
  ring

lemma sin_deg_neg_90 : Real.sin ((-90) * Real.pi / 180) = -1 := by
  rw [show ((-90) : ℝ) * Real.pi / 180 = -(Real.pi / 2) by ring, Real.sin_neg,
    Real.sin_pi_div_two]

lemma driftInchesVal_angle_0 (d v w : ℝ) : driftInchesVal d v w 0 = 0 := by
  rw [driftInchesVal, sin_deg_0]
  simp

lemma driftInchesVal_angle_180 (d v w : ℝ) : driftInchesVal d v w 180 = 0 := by
  rw [driftInchesVal, sin_deg_180]
  simp

lemma driftInchesVal_angle_90_pos (d v w : ℝ) (hd : 0 < d) (hv : 0 < v)
    (hw : 0 < w) : 0 < driftInchesVal d v w 90 := by
  rw [driftInchesVal, sin_deg_90, if_pos (by norm_num : (0 : ℝ) ≤ 1)]
  have hvf : 0 < (v / 2700 : ℝ) ^ (0.8 : ℝ) :=
    Real.rpow_pos_of_pos (by positivity) _
  simp only [abs_one, mul_one]
  positivity

lemma driftInchesVal_angle_270_neg (d v w : ℝ) (hd : 0 < d) (hv : 0 < v)
    (hw : 0 < w) : driftInchesVal d v w 270 < 0 := by
  rw [driftInchesVal, sin_deg_270, if_neg (by norm_num : ¬ (0 : ℝ) ≤ -1)]
  have hvf : 0 < (v / 2700 : ℝ) ^ (0.8 : ℝ) :=
    Real.rpow_pos_of_pos (by positivity) _
  have habs : |(-1 : ℝ)| = 1 := by norm_num
  rw [habs]
  have hpos : 0 < w * (d / 100) ^ 2 * 1 * 0.167 / ((v / 2700) ^ (0.8 : ℝ)) := by
    positivity
  linarith

lemma driftInchesVal_angle_neg90_neg (d v w : ℝ) (hd : 0 < d) (hv : 0 < v)
    (hw : 0 < w) : driftInchesVal d v w (-90) < 0 := by
  rw [driftInchesVal, sin_deg_neg_90, if_neg (by norm_num : ¬ (0 : ℝ) ≤ -1)]
  have hvf : 0 < (v / 2700 : ℝ) ^ (0.8 : ℝ) :=
    Real.rpow_pos_of_pos (by positivity) _
  have habs : |(-1 : ℝ)| = 1 := by norm_num
  rw [habs]
  have hpos : 0 < w * (d / 100) ^ 2 * 1 * 0.167 / ((v / 2700) ^ (0.8 : ℝ)) := by
    positivity
  linarith

/-- C4: for every positive distance, velocity and wind speed, head/tail
winds (0° or 180°) produce zero drift, a 90° wind drifts right (positive)
and a 270° or −90° wind drifts left (negative). -/
theorem c4_wind_drift_sign (d v w : ℝ) (hd : 0 < d) (hv : 0 < v) (hw : 0 < w) :
    (∃ r : DriftResult, compute_wind_drift d v w 0 = Except.ok r ∧
        r.drift_inches = 0) ∧
    (∃ r : DriftResult, compute_wind_drift d v w 180 = Except.ok r ∧
        r.drift_inches = 0) ∧
    (∃ r : DriftResult, compute_wind_drift d v w 90 = Except.ok r ∧
        0 < r.drift_inches) ∧
    (∃ r : DriftResult, compute_wind_drift d v w 270 = Except.ok r ∧
        r.drift_inches < 0) ∧
    (∃ r : DriftResult, compute_wind_drift d v w (-90) = Except.ok r ∧
        r.drift_inches < 0) := by
  have hd0 : d ≠ 0 := ne_of_gt hd
  exact ⟨⟨_, drift_ok d v w 0 hv hd0, driftInchesVal_angle_0 d v w⟩,
    ⟨_, drift_ok d v w 180 hv hd0, driftInchesVal_angle_180 d v w⟩,
    ⟨_, drift_ok d v w 90 hv hd0, driftInchesVal_angle_90_pos d v w hd hv hw⟩,
    ⟨_, drift_ok d v w 270 hv hd0, driftInchesVal_angle_270_neg d v w hd hv hw⟩,
    ⟨_, drift_ok d v w (-90) hv hd0, driftInchesVal_angle_neg90_neg d v w hd hv hw⟩⟩

theorem c4_witness :
    (∃ r : DriftResult, compute_wind_drift 300 2700 10 0 = Except.ok r ∧
        r.drift_inches = 0) ∧
    (∃ r : DriftResult, compute_wind_drift 300 2700 10 180 = Except.ok r ∧
        r.drift_inches = 0) ∧
    (∃ r : DriftResult, compute_wind_drift 300 2700 10 90 = Except.ok r ∧
        0 < r.drift_inches) ∧
    (∃ r : DriftResult, compute_wind_drift 300 2700 10 270 = Except.ok r ∧
        r.drift_inches < 0) ∧
    (∃ r : DriftResult, compute_wind_drift 300 2700 10 (-90) = Except.ok r ∧
        r.drift_inches < 0) :=
  c4_wind_drift_sign 300 2700 10 (by norm_num) (by norm_num) (by norm_num)

lemma tofVal_pos (x v : ℝ) (hx : 0 < x) (hv : 0 < v) : 0 < tofVal x v := by
  rw [tofVal, YARDS_TO_METERS, FPS_TO_MPS]
  positivity

lemma tofVal_lt_tofVal (a b v : ℝ) (hab : a < b) (hv : 0 < v) :
    tofVal a v < tofVal b v := by
  rw [tofVal, tofVal, YARDS_TO_METERS, FPS_TO_MPS]
  have hden : (0 : ℝ) < v * 0.3048 := by positivity
  apply div_lt_div_of_pos_right ?_ hden
  nlinarith

lemma dropInchesVal_lt (z v d1 d2 : ℝ) (hz : 0 < z) (hv : 0 < v)
    (h1 : z < d1) (h2 : d1 < d2) :
    dropInchesVal d1 v z < dropInchesVal d2 v z := by
  have ht1 : 0 < tofVal d1 v := tofVal_pos _ _ (hz.trans h1) hv
  have ht12 : tofVal d1 v < tofVal d2 v := tofVal_lt_tofVal _ _ _ h2 hv
  rw [dropInchesVal, dropInchesVal, G, INCHES_PER_METER]
  nlinarith [mul_pos (sub_pos.mpr ht12)
    (by linarith : (0 : ℝ) < tofVal d2 v + tofVal d1 v)]

lemma dropInchesVal_pos (z v d : ℝ) (hz : 0 < z) (hv : 0 < v) (h1 : z < d) :
    0 < dropInchesVal d v z := by
  have htz : 0 < tofVal z v := tofVal_pos _ _ hz hv
  have ht : tofVal z v < tofVal d v := tofVal_lt_tofVal _ _ _ h1 hv
  rw [dropInchesVal, G, INCHES_PER_METER]
  nlinarith [mul_pos (sub_pos.mpr ht)
    (by linarith : (0 : ℝ) < tofVal d v + tofVal z v)]

/-- C6: for fixed `zero_yards > 0` and `muzzle_velocity_fps > 0`, the
`drop_inches` returned by `compute_drop` is strictly increasing in
`distance_yards` beyond the zero range, and is positive there. -/
theorem c6_drop_monotone (z v d1 d2 : ℝ) (hz : 0 < z) (hv : 0 < v)
    (h1 : z < d1) (h2 : d1 < d2) :
    ∃ r1 r2 : DropResult,
      compute_drop d1 v z = Except.ok r1 ∧ compute_drop d2 v z = Except.ok r2 ∧
      r1.drop_inches < r2.drop_inches ∧ 0 < r1.drop_inches := by
  exact ⟨_, _, drop_ok d1 v z hv (ne_of_gt (hz.trans h1)),
    drop_ok d2 v z hv (ne_of_gt (hz.trans (h1.trans h2))),
    dropInchesVal_lt z v d1 d2 hz hv h1 h2,
    dropInchesVal_pos z v d1 hz hv h1⟩

theorem c6_witness :
    ∃ r1 r2 : DropResult,
      compute_drop 300 2700 200 = Except.ok r1 ∧
      compute_drop 400 2700 200 = Except.ok r2 ∧
      r1.drop_inches < r2.drop_inches ∧ 0 < r1.drop_inches :=
  c6_drop_monotone 200 2700 300 400 (by norm_num) (by norm_num) (by norm_num)
    (by norm_num)

/-- C7 counterexample: the claim quantifies over every fixed distance, but
at `distance_yards = 0` the time of flight is `0` for every velocity, so
raising the velocity does not strictly decrease it. -/
theorem c7_counterexample :
    ¬ (∀ dist v1 v2 t1 t2 : ℝ, 0 < v1 → v1 < v2 →
        compute_time_of_flight dist v1 = Except.ok t1 →
        compute_time_of_flight dist v2 = Except.ok t2 → t2 < t1) := by
  intro h
  have h1 : compute_time_of_flight 0 1 = Except.ok 0 := by
    rw [tof_ok 0 1 (by norm_num)]
    norm_num [tofVal]
  have h2 : compute_time_of_flight 0 2 = Except.ok 0 := by
    rw [tof_ok 0 2 (by norm_num)]
    norm_num [tofVal]
  exact absurd (h 0 1 2 0 0 (by norm_num) (by norm_num) h1 h2) (lt_irrefl 0)

/-- C7 (amended): for every fixed distance `> 0` the time of flight is
strictly decreasing in velocity, and for every fixed velocity `> 0` it is
strictly increasing in distance. -/
theorem c7_tof_monotone :
    (∀ dist v1 v2 : ℝ, 0 < dist → 0 < v1 → v1 < v2 →
      ∃ t1 t2 : ℝ, compute_time_of_flight dist v1 = Except.ok t1 ∧
        compute_time_of_flight dist v2 = Except.ok t2 ∧ t2 < t1) ∧
    (∀ d1 d2 v : ℝ, 0 < v → d1 < d2 →
      ∃ t1 t2 : ℝ, compute_time_of_flight d1 v = Except.ok t1 ∧
        compute_time_of_flight d2 v = Except.ok t2 ∧ t1 < t2) := by
  constructor
  · intro dist v1 v2 hdist hv1 hv12
    refine ⟨_, _, tof_ok dist v1 hv1, tof_ok dist v2 (hv1.trans hv12), ?_⟩
    rw [tofVal, tofVal, YARDS_TO_METERS, FPS_TO_MPS]
    have hnum : (0 : ℝ) < dist * 0.9144 := by positivity
    have hd1 : (0 : ℝ) < v1 * 0.3048 := by positivity
    have hd2 : (0 : ℝ) < v2 * 0.3048 := by nlinarith
    apply div_lt_div_of_pos_left hnum hd1
    nlinarith
  · intro d1 d2 v hv h12
    exact ⟨_, _, tof_ok d1 v hv, tof_ok d2 v hv, tofVal_lt_tofVal d1 d2 v h12 hv⟩

theorem c7_witness :
    (∃ t1 t2 : ℝ, compute_time_of_flight 300 2000 = Except.ok t1 ∧
        compute_time_of_flight 300 3000 = Except.ok t2 ∧ t2 < t1) ∧
    (∃ t1 t2 : ℝ, compute_time_of_flight 200 2700 = Except.ok t1 ∧
        compute_time_of_flight 300 2700 = Except.ok t2 ∧ t1 < t2) :=
  ⟨c7_tof_monotone.1 300 2000 3000 (by norm_num) (by norm_num) (by norm_num),
   c7_tof_monotone.2 200 300 2700 (by norm_num) (by norm_num)⟩

lemma driftInchesVal_distance_scale (k d v w a : ℝ) :
    driftInchesVal (k * d) v w a = k ^ 2 * driftInchesVal d v w a := by
  rw [driftInchesVal, driftInchesVal]
  ring

lemma driftInchesVal_velocity_scale (k d v w a : ℝ) (hk : 0 < k) (hv : 0 < v) :
    driftInchesVal d (k * v) w a = k ^ (-(0.8 : ℝ)) * driftInchesVal d v w a := by
  rw [driftInchesVal, driftInchesVal,
    show (k * v) / 2700 = k * (v / 2700) by ring,
    Real.mul_rpow hk.le (by positivity), Real.rpow_neg hk.le]
  have hvf : ((v / 2700 : ℝ) ^ (0.8 : ℝ)) ≠ 0 :=
    ne_of_gt (Real.rpow_pos_of_pos (by positivity) _)
  have hkf : ((k : ℝ) ^ (0.8 : ℝ)) ≠ 0 := ne_of_gt (Real.rpow_pos_of_pos hk _)
  field_simp
  ring_nf

/-- C8: in the calibrated model, `drift_inches` scales with the square of
distance and with velocity to the power `-0.8`: scaling the distance by
`k > 0` multiplies the drift by `k²`, scaling the velocity by `k > 0`
multiplies it by `k ^ (-0.8)`. -/
theorem c8_drift_scaling (k d v w a : ℝ) (hk : 0 < k) (hd : 0 < d) (hv : 0 < v) :
    (∃ r rk : DriftResult, compute_wind_drift d v w a = Except.ok r ∧
        compute_wind_drift (k * d) v w a = Except.ok rk ∧
        rk.drift_inches = k ^ 2 * r.drift_inches) ∧
    (∃ r rk : DriftResult, compute_wind_drift d v w a = Except.ok r ∧
        compute_wind_drift d (k * v) w a = Except.ok rk ∧
        rk.drift_inches = k ^ (-(0.8 : ℝ)) * r.drift_inches) := by
  constructor
  · exact ⟨_, _, drift_ok d v w a hv (ne_of_gt hd),
      drift_ok (k * d) v w a hv (by positivity),
      driftInchesVal_distance_scale k d v w a⟩
  · exact ⟨_, _, drift_ok d v w a hv (ne_of_gt hd),
      drift_ok d (k * v) w a (by positivity) (ne_of_gt hd),
      driftInchesVal_velocity_scale k d v w a hk hv⟩

theorem c8_witness :
    (∃ r rk : DriftResult, compute_wind_drift 100 2700 10 90 = Except.ok r ∧
        compute_wind_drift (2 * 100) 2700 10 90 = Except.ok rk ∧
        rk.drift_inches = 2 ^ 2 * r.drift_inches) ∧
    (∃ r rk : DriftResult, compute_wind_drift 100 2700 10 90 = Except.ok r ∧
        compute_wind_drift 100 (2 * 2700) 10 90 = Except.ok rk ∧
        rk.drift_inches = 2 ^ (-(0.8 : ℝ)) * r.drift_inches) :=
  c8_drift_scaling 2 100 2700 10 90 (by norm_num) (by norm_num) (by norm_num)

/-- C9 counterexample: at `distance_yards = 0` the MOA conversion of
`compute_drop` divides by zero (a Python `ZeroDivisionError`), so the input
is not rejected with the InvalidInput-style typed error the claim
requires. -/
theorem c9_counterexample :
    compute_drop 0 2700 100 = Except.error BallisticsError.divisionByZero := by
  simp only [compute_drop, tof_ok _ _ (by norm_num : (0 : ℝ) < 2700), bind_ok]
  norm_num

/-- C9 (amended): `compute_drop` performs no validation of small
`distance_yards`: at `distance_yards = 0` the MOA conversion fails with the
untyped division-by-zero error (never the InvalidInput kind), and for every
positive distance, however close to zero, it returns a result without any
rejection. -/
theorem c9_no_distance_validation (v z : ℝ) (hv : 0 < v) (_hz : 0 < z) :
    compute_drop 0 v z = Except.error BallisticsError.divisionByZero ∧
    (∀ d : ℝ, 0 < d → ∃ r : DropResult, compute_drop d v z = Except.ok r) := by
  constructor
  · simp only [compute_drop, tof_ok _ _ hv, bind_ok]
    norm_num
  · intro d hd
    exact ⟨_, drop_ok d v z hv (ne_of_gt hd)⟩

theorem c9_witness :
    compute_drop 0 2700 200 = Except.error BallisticsError.divisionByZero ∧
    (∀ d : ℝ, 0 < d → ∃ r : DropResult, compute_drop d 2700 200 = Except.ok r) :=
  c9_no_distance_validation 2700 200 (by norm_num) (by norm_num)

/-- C10: `compute_wind_drift` does no muzzle-velocity validation: for
non-positive velocity it never fails with the `invalidInput` kind, and at
velocity exactly 0 the division by `velocity_factor = (0/2700) ^ 0.8 = 0`
fails with the division-by-zero error instead. -/
theorem c10_no_velocity_validation (d v w a : ℝ) (hv : v ≤ 0) :
    (∀ s : String,
      compute_wind_drift d v w a ≠ Except.error (BallisticsError.invalidInput s)) ∧
    (v = 0 →
      compute_wind_drift d v w a = Except.error BallisticsError.divisionByZero) := by
  constructor
  · intro s
    simp only [compute_wind_drift]
    split
    · simp
    · split
      · simp
      · simp
  · rintro rfl
    have h0 : (0 : ℝ) ^ (0.8 : ℝ) = 0 := Real.zero_rpow (by norm_num)
    simp [compute_wind_drift, h0]

theorem c10_witness :
    compute_wind_drift 300 0 10 90
        ≠ Except.error (BallisticsError.invalidInput "Muzzle velocity must be > 0") ∧
      compute_wind_drift 300 0 10 90
        = Except.error BallisticsError.divisionByZero :=
  ⟨(c10_no_velocity_validation 300 0 10 90 (le_refl 0)).1
      "Muzzle velocity must be > 0",
   (c10_no_velocity_validation 300 0 10 90 (le_refl 0)).2 rfl⟩

end ShotTracker
